import Mathlib

/-!
Verification development for the risk-gated refund approval pipeline of the
ecommerce repository.  The Python sources are shallowly embedded: the
database session becomes an explicit `DB` value, Celery task submission
(`task.delay(...)`) becomes appending a `CeleryTask` to a list, and
WebSocket pushes (`manager.notify_status_change`) become a list of
`WsEvent` values.  Monetary amounts (Python floats holding currency
values) are modelled as `Rat`; timestamps are modelled as `Int` (days for
the refund deadline check, abstract instants elsewhere).  Fallible
endpoints (FastAPI handlers raising `HTTPException`) return `Except`.
All definitions are translated from the source files under `app/`.
-/

namespace ECommerce

/-- Risk levels, from `app/models/audit.py` (`RiskLevel`). -/
inductive RiskLevel where
  | LOW
  | MEDIUM
  | HIGH
  | CRITICAL
deriving DecidableEq, Repr

/-- Audit review actions, from `app/models/audit.py` (`AuditAction`). -/
inductive AuditAction where
  | APPROVE
  | REJECT
  | ESCALATE
  | PENDING
deriving DecidableEq, Repr

/-- Refund application states, from `app/models/refund.py` (`RefundStatus`). -/
inductive RefundStatus where
  | PENDING
  | APPROVED
  | REJECTED
  | COMPLETED
  | CANCELLED
deriving DecidableEq, Repr

/-- Refund reason categories, from `app/models/refund.py` (`RefundReason`). -/
inductive RefundReason where
  | QUALITY_ISSUE
  | SIZE_NOT_FIT
  | NOT_AS_DESCRIBED
  | CHANGED_MIND
  | OTHER
deriving DecidableEq, Repr

/-- Order states, from `app/models/order.py` (`OrderStatus`). -/
inductive OrderStatus where
  | PENDING
  | PAID
  | SHIPPED
  | DELIVERED
  | CANCELLED
deriving DecidableEq, Repr

/-- Message card types, from `app/models/message.py` (`MessageType`). -/
inductive MessageType where
  | TEXT
  | AUDIT_CARD
  | ORDER_CARD
  | REFUND_CARD
  | SYSTEM
deriving DecidableEq, Repr

/-- Message card states, from `app/models/message.py` (`MessageStatus`). -/
inductive MessageStatus where
  | PENDING
  | SENT
  | READ
  | FAILED
deriving DecidableEq, Repr

/-- One order line item (an entry of `Order.items`, a JSON dict with at
least `name` and `qty` in the seed data). -/
structure Item where
  name : String
  qty : Nat
deriving DecidableEq, Repr

/-- Orders table row, from `app/models/order.py` (`Order`).  `createdAt`
is in days so that the refund-deadline arithmetic of
`refund_service._check_time_limit` (which compares `timedelta.days`)
is direct. -/
structure Order where
  id : Nat
  orderSn : String
  userId : Nat
  status : OrderStatus
  totalAmount : Rat
  items : List Item
  trackingNumber : Option String
  shippingAddress : String
  createdAt : Int
deriving DecidableEq, Repr

/-- Refund applications table row, from `app/models/refund.py`
(`RefundApplication`). -/
structure RefundApplication where
  id : Nat
  orderId : Nat
  userId : Nat
  status : RefundStatus
  reasonCategory : Option RefundReason
  reasonDetail : String
  refundAmount : Rat
  adminNote : Option String
  reviewedBy : Option Nat
  reviewedAt : Option Int
  createdAt : Int
  updatedAt : Int
deriving DecidableEq, Repr

/-- The `refund_data` dict assembled by `nodes.handle_refund` and read by
`nodes.check_refund_eligibility`. -/
structure RefundData where
  refundId : Nat
  orderId : Nat
  orderSn : String
  amount : Rat
  reason : String
  reasonCategory : RefundReason
deriving DecidableEq, Repr

/-- The `context_snapshot` JSON stored on an audit log by
`nodes.check_refund_eligibility` (question, refund data, order dump,
history). -/
structure Snapshot where
  question : String
  refundData : Option RefundData
  orderData : Option Order
  history : List String
deriving DecidableEq, Repr

/-- Audit logs table row, from `app/models/audit.py` (`AuditLog`). -/
structure AuditLog where
  id : Nat
  threadId : String
  userId : Nat
  orderId : Option Nat
  refundApplicationId : Option Nat
  triggerReason : String
  riskLevel : RiskLevel
  action : AuditAction
  adminId : Option Nat
  adminComment : Option String
  contextSnapshot : Snapshot
  createdAt : Int
  reviewedAt : Option Int
  updatedAt : Int
deriving DecidableEq, Repr

/-- Content payloads of message cards as built by the two writers in the
source: the audit-result card of `admin.admin_decision` and the
admin-notification card of `refund_tasks.notify_admin_audit`. -/
inductive CardContent where
  | auditResult (action : String) (message : String)
      (adminComment : Option String) (timestamp : Int)
  | adminNotice (auditLogId : Nat) (riskLevel : RiskLevel) (message : String)
deriving DecidableEq, Repr

/-- Message cards table row, from `app/models/message.py` (`MessageCard`). -/
structure MessageCard where
  threadId : String
  messageType : MessageType
  status : MessageStatus
  content : CardContent
  senderType : String
  senderId : Option Nat
  receiverId : Option Nat
  createdAt : Int
deriving DecidableEq, Repr

/-- The persistent store: the four tables the pipeline touches, plus the
autoincrement counters for the two tables the pipeline inserts into. -/
structure DB where
  orders : List Order
  refunds : List RefundApplication
  auditLogs : List AuditLog
  messageCards : List MessageCard
  nextRefundId : Nat
  nextAuditId : Nat
deriving DecidableEq, Repr

/-- Risk thresholds from `app/core/config.py` (`Settings`). -/
structure Settings where
  HIGH_RISK_REFUND_AMOUNT : Rat
  MEDIUM_RISK_REFUND_AMOUNT : Rat
deriving DecidableEq, Repr

/-- The configured defaults: `HIGH_RISK_REFUND_AMOUNT = 2000.0`,
`MEDIUM_RISK_REFUND_AMOUNT = 500.0` (`app/core/config.py`, lines 80-81). -/
def defaultSettings : Settings :=
  { HIGH_RISK_REFUND_AMOUNT := 2000, MEDIUM_RISK_REFUND_AMOUNT := 500 }

/-- The risk classification embedded in `nodes.check_refund_eligibility`
(lines 445-455): `amount >= HIGH_RISK_REFUND_AMOUNT` is HIGH,
`amount >= MEDIUM_RISK_REFUND_AMOUNT` is MEDIUM, anything lower is the
auto-approved low-risk branch. -/
def classify (cfg : Settings) (amount : Rat) : RiskLevel :=
  if amount ≥ cfg.HIGH_RISK_REFUND_AMOUNT then RiskLevel.HIGH
  else if amount ≥ cfg.MEDIUM_RISK_REFUND_AMOUNT then RiskLevel.MEDIUM
  else RiskLevel.LOW

/-- C5 — Risk classification mapping: for every configuration and every
amount, the classifier yields HIGH exactly when the amount is at or above
the high threshold, MEDIUM exactly when it is at or above the medium
threshold but below the high one, and LOW exactly otherwise; boundary
values resolve upward because the comparisons are `≥`.  The function is a
total Lean function on `Rat`, so purity and totality hold by
construction. -/
theorem classify_spec (cfg : Settings) (a : Rat) :
    (classify cfg a = RiskLevel.HIGH ↔ cfg.HIGH_RISK_REFUND_AMOUNT ≤ a) ∧
    (classify cfg a = RiskLevel.MEDIUM ↔
      cfg.MEDIUM_RISK_REFUND_AMOUNT ≤ a ∧ a < cfg.HIGH_RISK_REFUND_AMOUNT) ∧
    (classify cfg a = RiskLevel.LOW ↔
      a < cfg.MEDIUM_RISK_REFUND_AMOUNT ∧ a < cfg.HIGH_RISK_REFUND_AMOUNT) := by
  unfold classify
  split_ifs with h1 h2 <;> refine ⟨?_, ?_, ?_⟩ <;> simp_all

/-! ## Side-effect model: Celery tasks and WebSocket events -/

/-- The three Celery tasks of `app/tasks/refund_tasks.py`, identified, as
in the source, only by task name and positional arguments. -/
inductive CeleryTask where
  | processRefundPayment (refundId : Nat) (amount : Rat) (paymentMethod : String)
  | sendRefundSms (refundId : Nat) (phone : String) (message : String)
  | notifyAdminAudit (auditLogId : Nat)
deriving DecidableEq, Repr

/-- Celery's `task.delay(...)` as used throughout the source: it sends one
more task message to the broker, unconditionally.  The source attaches no
idempotency key and performs no duplicate check before sending. -/
def delay (queue : List CeleryTask) (t : CeleryTask) : List CeleryTask :=
  queue ++ [t]

/-- Delivery subjects of `websocket/manager.py`: the subscribers of one
customer thread, or the admin connection pool. -/
inductive Subject where
  | thread (threadId : String)
  | adminPool
deriving DecidableEq, Repr

/-- Event payloads passed as the `data` dict of
`manager.notify_status_change` by its two call sites: the admin-decision
push of `admin.admin_decision` and the escalation push of
`nodes.check_refund_eligibility`. -/
inductive WsData where
  | decision (message : String) (adminComment : Option String)
  | escalation (riskLevel : RiskLevel) (triggerReason : String)
      (auditLogId : Nat) (refundAmount : Rat)
deriving DecidableEq, Repr

/-- One WebSocket push. -/
structure WsEvent where
  subject : Subject
  etype : String
  status : Option String
  data : WsData
deriving DecidableEq, Repr

/-- Embedding of `ConnectionManager.notify_status_change`
(`websocket/manager.py`, lines 104-131): a `status_change` event to the
thread's subscribers, plus a `new_audit_task` broadcast to the admin pool
when the status is `WAITING_ADMIN`. -/
def notify_status_change (threadId status : String) (data : WsData) : List WsEvent :=
  { subject := Subject.thread threadId, etype := "status_change",
    status := some status, data := data } ::
  (if status = "WAITING_ADMIN" then
    [{ subject := Subject.adminPool, etype := "new_audit_task",
       status := none, data := data }]
   else [])

/-! ## Generic list helpers shared by the embeddings -/

/-- An SQL `UPDATE ... WHERE q` on an in-memory table: apply `g` to every
row matching `q`. -/
def updateWhere {α : Type} (q : α → Bool) (g : α → α) (l : List α) : List α :=
  l.map (fun x => cond (q x) (g x) x)

/-- Row lookup by primary key on the audit-log table
(`select(AuditLog).where(AuditLog.id == ...)` with `scalar_one_or_none`). -/
def auditIdIs (i : Nat) (l : AuditLog) : Bool := decide (l.id = i)

/-- Row lookup by primary key on the refund-application table. -/
def refundIdIs (i : Nat) (r : RefundApplication) : Bool := decide (r.id = i)

/-- First audit log with the given id, if any. -/
def findAudit (db : DB) (i : Nat) : Option AuditLog :=
  db.auditLogs.find? (auditIdIs i)

/-- First refund application with the given id, if any. -/
def findRefund (db : DB) (i : Nat) : Option RefundApplication :=
  db.refunds.find? (refundIdIs i)

/-- Finding a row and then updating exactly the rows matching the same
key predicate locates the updated row, provided the update does not
change the key. -/
theorem find?_updateWhere {α : Type} (q : α → Bool) (g : α → α)
    (hq : ∀ x, q (g x) = q x) :
    ∀ (l : List α) (a : α), l.find? q = some a →
      (updateWhere q g l).find? q = some (g a) := by
  intro l
  induction l with
  | nil => intro a h; simp [List.find?] at h
  | cons x xs ih =>
    intro a h
    by_cases hx : q x = true
    · rw [List.find?_cons_of_pos _ hx] at h
      cases h
      simp only [updateWhere, List.map_cons, cond_eq_if, hx, if_true]
      exact List.find?_cons_of_pos _ (by rw [hq]; exact hx)
    · rw [List.find?_cons_of_neg _ hx] at h
      have hx' : q x = false := by revert hx; cases q x <;> simp
      simp only [updateWhere, List.map_cons, cond_eq_if, hx', if_false,
        Bool.false_eq_true]
      rw [List.find?_cons_of_neg _ hx]
      simpa [updateWhere, cond_eq_if] using ih a h

/-! ## Embedding of the admin decision endpoint (`app/api/v1/admin.py`) -/

/-- Request body of `POST /admin/resume/...` (`AdminDecisionRequest`). -/
structure AdminDecisionRequest where
  action : String
  adminComment : Option String
deriving DecidableEq, Repr

/-- Response body of the decision endpoint (`AdminDecisionResponse`). -/
structure AdminDecisionResponse where
  success : Bool
  message : String
  auditLogId : Nat
  action : String
deriving DecidableEq, Repr

/-- The two `HTTPException`s `admin_decision` can raise: 404 when the
audit log does not exist, and 400 ("This audit has already been
processed") when its action is no longer PENDING. -/
inductive HttpError where
  | notFound
  | alreadyProcessed
deriving DecidableEq, Repr

/-- Result of a successful decision call: the committed store, the Celery
tasks sent, the WebSocket events pushed, and the HTTP response. -/
structure DecideOk where
  db : DB
  tasks : List CeleryTask
  events : List WsEvent
  resp : AdminDecisionResponse
deriving DecidableEq, Repr

/-- Python f-string rendering of an `Optional[str]`: `None` prints as the
literal text `None`. -/
def optStr : Option String → String
  | some s => s
  | none => "None"

/-- SMS text built by the approve branch of `admin_decision` (line 159). -/
def refundSmsText (amount : Rat) : String :=
  "您的退款申请已通过，退款金额¥" ++ toString amount ++ "将在3-5个工作日退回。"

/-- Audit-log mutation of `admin_decision` step 2 (lines 125-131). -/
def decideAuditUpdate (actionEnum : AuditAction) (adminId : Nat) (comment : Option String)
    (now : Int) (l : AuditLog) : AuditLog :=
  { l with
    action := actionEnum, adminId := some adminId,
    adminComment := comment, reviewedAt := some now, updatedAt := now }

/-- Refund-application mutation of `admin_decision` step 3
(lines 143-147 and 162-166); the status written is APPROVED or REJECTED
according to the action. -/
def decideRefundUpdate (newStatus : RefundStatus) (adminId : Nat)
    (comment : Option String) (now : Int) (r : RefundApplication) : RefundApplication :=
  { r with
    status := newStatus, adminNote := comment,
    reviewedBy := some adminId, reviewedAt := some now }

/-- Embedding of `admin.admin_decision` (`app/api/v1/admin.py`, lines
89-207).  Control flow of the source: look up the audit log (404 when
absent); reject with 400 when its action is not PENDING; otherwise record
the decision on the audit log, update the linked refund application when
it exists (APPROVE additionally sends the payment and SMS Celery tasks;
any other action string is treated as REJECT and sends nothing), insert
the audit-result message card, commit, and push the status change to the
thread's subscribers. -/
def admin_decision (db : DB) (auditLogId : Nat) (req : AdminDecisionRequest)
    (currentAdminId : Nat) (now : Int) : Except HttpError DecideOk :=
  match findAudit db auditLogId with
  | none => Except.error HttpError.notFound
  | some auditLog =>
    if auditLog.action ≠ AuditAction.PENDING then
      Except.error HttpError.alreadyProcessed
    else
      let actionEnum :=
        if req.action = "APPROVE" then AuditAction.APPROVE else AuditAction.REJECT
      let auditLogs' := updateWhere (auditIdIs auditLogId)
        (decideAuditUpdate actionEnum currentAdminId req.adminComment now) db.auditLogs
      let refundPart : List RefundApplication × List CeleryTask :=
        match auditLog.refundApplicationId with
        | none => (db.refunds, [])
        | some rid =>
          match findRefund db rid with
          | none => (db.refunds, [])
          | some refund =>
            if actionEnum = AuditAction.APPROVE then
              (updateWhere (refundIdIs rid)
                 (decideRefundUpdate RefundStatus.APPROVED currentAdminId
                   req.adminComment now) db.refunds,
               delay (delay []
                 (CeleryTask.processRefundPayment rid refund.refundAmount ("原支付方式")))
                 (CeleryTask.sendRefundSms rid ("138****1234")
                   (refundSmsText refund.refundAmount)))
            else
              (updateWhere (refundIdIs rid)
                 (decideRefundUpdate RefundStatus.REJECTED currentAdminId
                   req.adminComment now) db.refunds,
               [])
      let statusMessage :=
        if actionEnum = AuditAction.APPROVE then
          " 审核通过，资金将在3-5个工作日内原路退回"
        else
          " 审核未通过: " ++ optStr req.adminComment
      let card : MessageCard :=
        { threadId := auditLog.threadId, messageType := MessageType.AUDIT_CARD,
          status := MessageStatus.SENT,
          content := CardContent.auditResult req.action statusMessage req.adminComment now,
          senderType := "admin", senderId := some currentAdminId,
          receiverId := some auditLog.userId, createdAt := now }
      Except.ok
        { db := { db with
                    auditLogs := auditLogs', refunds := refundPart.1,
                    messageCards := db.messageCards ++ [card] },
          tasks := refundPart.2,
          events := notify_status_change auditLog.threadId req.action
            (WsData.decision statusMessage req.adminComment),
          resp := { success := true, message := "审核决策已提交:  " ++ req.action,
                    auditLogId := auditLogId, action := req.action } }

/-- Whether an `Except` result is a success. -/
def isOkE {ε α : Type} : Except ε α → Bool
  | Except.ok _ => true
  | Except.error _ => false

/-- The store after a decision call; an erroring call leaves the store as
it was (the handler raises before any commit). -/
def decideDbAfter (db : DB) (auditLogId : Nat) (req : AdminDecisionRequest)
    (currentAdminId : Nat) (now : Int) : DB :=
  match admin_decision db auditLogId req currentAdminId now with
  | Except.ok o => o.db
  | Except.error _ => db

/-- The Celery tasks sent by a decision call (none when it errors). -/
def decideTasks (db : DB) (auditLogId : Nat) (req : AdminDecisionRequest)
    (currentAdminId : Nat) (now : Int) : List CeleryTask :=
  match admin_decision db auditLogId req currentAdminId now with
  | Except.ok o => o.tasks
  | Except.error _ => []

/-- The WebSocket events pushed by a decision call (none when it errors). -/
def decideEvents (db : DB) (auditLogId : Nat) (req : AdminDecisionRequest)
    (currentAdminId : Nat) (now : Int) : List WsEvent :=
  match admin_decision db auditLogId req currentAdminId now with
  | Except.ok o => o.events
  | Except.error _ => []

/-! ## Embedding of the eligibility/escalation node (`app/graph/nodes.py`) -/

/-- The slice of `AgentState` read by `nodes.check_refund_eligibility`:
question, user, thread, the refund data produced by `handle_refund`, the
order dump, the history, and the running answer (`state.get("answer", "")`). -/
structure AgentState where
  question : String
  userId : Nat
  threadId : String
  refundData : Option RefundData
  orderData : Option Order
  history : List String
  answer : String
deriving DecidableEq, Repr

/-- The dict returned by `check_refund_eligibility`. -/
structure EligResult where
  auditRequired : Bool
  auditLogId : Option Nat
  answer : String
deriving DecidableEq, Repr

/-- Full outcome of running the node: committed store, Celery tasks sent,
WebSocket events pushed, and the returned state delta. -/
structure EligOut where
  db : DB
  tasks : List CeleryTask
  events : List WsEvent
  res : EligResult
deriving DecidableEq, Repr

/-- Refund mutation of the low-risk auto-approval branch
(`nodes.check_refund_eligibility`, lines 458-464). -/
def autoApprove (now : Int) (r : RefundApplication) : RefundApplication :=
  { r with status := RefundStatus.APPROVED, reviewedAt := some now }

/-- Answer text of the auto-approval branch (line 468). -/
def autoApproveAnswer (rd : RefundData) : String :=
  " 您的退货申请已自动审核通过！\n\n 申请编号:  " ++ toString rd.refundId ++
  "\n 退款金额: ¥" ++ toString rd.amount ++
  "\n\n资金将在 3-5 个工作日内原路退回，请注意查收。"

/-- Answer text of the escalation branch (line 529). -/
def escalationAnswer (rd : RefundData) (risk : RiskLevel) (triggerReason : String) : String :=
  " 您的退货申请需要人工审核\n\n 申请编号: " ++ toString rd.refundId ++
  "\n 退款金额: ¥" ++ toString rd.amount ++
  "\n 风险等级: " ++ reprStr risk ++
  "\n 触发原因: " ++ triggerReason ++
  "\n\n我们将在 24 小时内完成审核，请耐心等待。您可以关闭页面，稍后返回查看结果。"

/-- Escalation tail of `check_refund_eligibility` (lines 477-530): insert
a PENDING audit log with the context snapshot, send the
`notify_admin_audit` Celery task, and push `WAITING_ADMIN` to the thread
(which `notify_status_change` also fans out to the admin pool). -/
def escalateCase (db : DB) (st : AgentState) (rd : RefundData)
    (risk : RiskLevel) (triggerReason : String) (now : Int) : EligOut :=
  let auditLog : AuditLog :=
    { id := db.nextAuditId, threadId := st.threadId, userId := st.userId,
      orderId := some rd.orderId, refundApplicationId := some rd.refundId,
      triggerReason := triggerReason, riskLevel := risk,
      action := AuditAction.PENDING, adminId := none, adminComment := none,
      contextSnapshot :=
        { question := st.question, refundData := some rd,
          orderData := st.orderData, history := st.history },
      createdAt := now, reviewedAt := none, updatedAt := now }
  { db := { db with
            auditLogs := db.auditLogs ++ [auditLog],
            nextAuditId := db.nextAuditId + 1 },
    tasks := delay [] (CeleryTask.notifyAdminAudit auditLog.id),
    events := notify_status_change st.threadId ("WAITING_ADMIN")
      (WsData.escalation risk triggerReason auditLog.id rd.amount),
    res := { auditRequired := true, auditLogId := some auditLog.id,
             answer := escalationAnswer rd risk triggerReason } }

/-- Embedding of `nodes.check_refund_eligibility` (`app/graph/nodes.py`,
lines 421-530).  With no refund data the node is a no-op.  Otherwise the
amount is compared against the configured thresholds: at or above the
high threshold escalates as HIGH, at or above the medium threshold as
MEDIUM, and anything lower is auto-approved — the refund application is
set to APPROVED and the node returns immediately, sending no Celery task
and pushing no WebSocket event. -/
def check_refund_eligibility (cfg : Settings) (db : DB) (st : AgentState)
    (now : Int) : EligOut :=
  match st.refundData with
  | none =>
    { db := db, tasks := [], events := [],
      res := { auditRequired := false, auditLogId := none, answer := st.answer } }
  | some rd =>
    if rd.amount ≥ cfg.HIGH_RISK_REFUND_AMOUNT then
      escalateCase db st rd RiskLevel.HIGH
        ("高额退款申请：¥" ++ toString rd.amount ++ " (≥ ¥" ++
          toString cfg.HIGH_RISK_REFUND_AMOUNT ++ ")") now
    else if rd.amount ≥ cfg.MEDIUM_RISK_REFUND_AMOUNT then
      escalateCase db st rd RiskLevel.MEDIUM
        ("中额退款申请：¥" ++ toString rd.amount ++ " (≥ ¥" ++
          toString cfg.MEDIUM_RISK_REFUND_AMOUNT ++ ")") now
    else
      { db := { db with
                refunds := updateWhere (refundIdIs rd.refundId) (autoApprove now) db.refunds },
        tasks := [], events := [],
        res := { auditRequired := false, auditLogId := none,
                 answer := autoApproveAnswer rd } }

/-! ## Embedding of the Celery workers (`app/tasks/refund_tasks.py`) -/

/-- Result dict returned by `process_refund_payment` on success. -/
structure PaymentResult where
  status : String
  refundId : Nat
  amount : Rat
  transactionId : String
deriving DecidableEq, Repr

/-- The failure of the payment worker's own logic: the refund application
does not exist (`ValueError`, re-raised into Celery retry). -/
inductive TaskError where
  | refundNotFound (refundId : Nat)
deriving DecidableEq, Repr

/-- Refund mutation of the payment worker on gateway success
(`refund_tasks.process_refund_payment`, lines 100-104). -/
def completeRefund (now : Int) (r : RefundApplication) : RefundApplication :=
  { r with status := RefundStatus.COMPLETED, updatedAt := now }

/-- Embedding of `refund_tasks.process_refund_payment` (lines 72-121):
look up the refund application (error when absent, which Celery retries);
on gateway success write status COMPLETED on the application and commit.
On error no commit happened, so the store is unchanged — hence the
`Except` shape. -/
def process_refund_payment (db : DB) (refundId : Nat) (amount : Rat)
    (paymentMethod : String) (now : Int) : Except TaskError (DB × PaymentResult) :=
  match findRefund db refundId with
  | none => Except.error (TaskError.refundNotFound refundId)
  | some _ =>
    Except.ok
      ({ db with
         refunds := updateWhere (refundIdIs refundId) (completeRefund now) db.refunds },
       { status := "success", refundId := refundId, amount := amount,
         transactionId := "TXN" ++ toString refundId ++ toString now })

/-- Result dict returned by `send_refund_sms`. -/
structure SmsResult where
  status : String
  refundId : Nat
  phone : String
deriving DecidableEq, Repr

/-- Embedding of `refund_tasks.send_refund_sms` (lines 34-62): the worker
only talks to the (simulated) SMS gateway and returns a result dict — it
opens no database session at all, so its type takes no store. -/
def send_refund_sms (refundId : Nat) (phone message : String) : SmsResult :=
  { status := "success", refundId := refundId, phone := phone }

/-! ## Embedding of the status query (`app/api/v1/status.py`) -/

/-- Data dict of the status response, per branch of `get_thread_status`. -/
inductive StatusData where
  | waiting (auditLogId : Nat) (riskLevel : RiskLevel) (triggerReason : String)
  | decided (adminComment : Option String) (reviewedAt : Option Int)
  | emptyData
deriving DecidableEq, Repr

/-- Response of `GET /status/...` (`StatusResponse`); a `none` timestamp
models the empty-string timestamp of the source. -/
structure StatusResponse where
  threadId : String
  status : String
  message : String
  data : StatusData
  timestamp : Option Int
deriving DecidableEq, Repr

/-- The `or` fallback of the REJECT branch message: `None` and the empty
string both fall back to the contact-support text. -/
def commentOr (c : Option String) : String :=
  match c with
  | none => "请联系客服"
  | some s => if s = "" then "请联系客服" else s

/-- Latest audit log of a thread for a user
(`select(AuditLog).where(thread_id, user_id).order_by(desc(created_at)).limit(1)`):
the row maximising `createdAt` among the matching rows (the first such
row on ties, which SQL leaves unspecified). -/
def latestAuditFor (db : DB) (threadId : String) (userId : Nat) : Option AuditLog :=
  (db.auditLogs.filter (fun l => decide (l.threadId = threadId ∧ l.userId = userId))).foldl
    (fun acc l =>
      match acc with
      | none => some l
      | some m => if l.createdAt > m.createdAt then some l else some m) none

/-- Latest message card of a thread, used only for the PROCESSING
timestamp. -/
def latestMessageFor (db : DB) (threadId : String) : Option MessageCard :=
  (db.messageCards.filter (fun c => decide (c.threadId = threadId))).foldl
    (fun acc c =>
      match acc with
      | none => some c
      | some m => if c.createdAt > m.createdAt then some c else some m) none

/-- Embedding of `status.get_thread_status` (`app/api/v1/status.py`,
lines 27-101).  The query only reads: it renders the thread's latest
audit log (PENDING to WAITING_ADMIN, APPROVE to APPROVED, REJECT to
REJECTED) and falls through to PROCESSING when there is no audit log for
the thread — or when its action is ESCALATE, which matches none of the
source's branches. -/
def get_thread_status (db : DB) (threadId : String) (currentUserId : Nat) : StatusResponse :=
  let processing : StatusResponse :=
    { threadId := threadId, status := "PROCESSING",
      message := "正在处理您的请求...", data := StatusData.emptyData,
      timestamp := (latestMessageFor db threadId).map MessageCard.createdAt }
  match latestAuditFor db threadId currentUserId with
  | none => processing
  | some l =>
    if l.action = AuditAction.PENDING then
      { threadId := threadId, status := "WAITING_ADMIN",
        message := "人工审核中，请稍候.. .",
        data := StatusData.waiting l.id l.riskLevel l.triggerReason,
        timestamp := some l.createdAt }
    else if l.action = AuditAction.APPROVE then
      { threadId := threadId, status := "APPROVED",
        message := "审核通过，正在处理退款.. .",
        data := StatusData.decided l.adminComment l.reviewedAt,
        timestamp := some l.updatedAt }
    else if l.action = AuditAction.REJECT then
      { threadId := threadId, status := "REJECTED",
        message := "审核未通过:  " ++ commentOr l.adminComment,
        data := StatusData.decided l.adminComment l.reviewedAt,
        timestamp := some l.updatedAt }
    else processing

/-- Rendering table of the spec's query path, written from the spec's
words for the refinement comparison of claim C8: no audit record (or the
unreachable ESCALATE) renders PROCESSING, PENDING renders WAITING_ADMIN,
APPROVE renders APPROVED, REJECT renders REJECTED. -/
def renderAction : Option AuditAction → String
  | none => "PROCESSING"
  | some AuditAction.PENDING => "WAITING_ADMIN"
  | some AuditAction.APPROVE => "APPROVED"
  | some AuditAction.REJECT => "REJECTED"
  | some AuditAction.ESCALATE => "PROCESSING"

/-! ## Embedding of the refund service (`app/services/refund_service.py`) -/

namespace RefundRules

/-- Refund deadline in days (`RefundRules.REFUND_DEADLINE_DAYS`). -/
def REFUND_DEADLINE_DAYS : Int := 7

/-- Order states allowed to start a refund
(`RefundRules.ALLOWED_ORDER_STATUSES`). -/
def ALLOWED_ORDER_STATUSES : List OrderStatus :=
  [OrderStatus.DELIVERED, OrderStatus.SHIPPED]

/-- Item categories excluded from refunds
(`RefundRules.NON_REFUNDABLE_CATEGORIES`). -/
def NON_REFUNDABLE_CATEGORIES : List String :=
  ["内衣", "食品", "定制商品"]

end RefundRules

/-- Whether one character list starts with another. -/
def listStartsWith : List Char → List Char → Bool
  | _, [] => true
  | [], _ :: _ => false
  | a :: as, b :: bs => decide (a = b) && listStartsWith as bs

/-- Whether `sub` occurs inside `s` (Python's `sub in s`). -/
def listContainsSub (s sub : List Char) : Bool :=
  match s with
  | [] => sub.isEmpty
  | _ :: t => listStartsWith s sub || listContainsSub t sub

/-- Python's substring test `sub in s` on strings. -/
def strContains (s sub : String) : Bool :=
  listContainsSub s.data sub.data

/-- Predicate of `_check_existing_refund`'s query: a refund application
row for the order in state PENDING or APPROVED. -/
def openPred (orderId : Nat) (r : RefundApplication) : Bool :=
  decide (r.orderId = orderId ∧
    (r.status = RefundStatus.PENDING ∨ r.status = RefundStatus.APPROVED))

/-- Embedding of `RefundEligibilityChecker._check_existing_refund`
(lines 79-93): first refund application of the order in state PENDING or
APPROVED, if any. -/
def check_existing_refund (refunds : List RefundApplication)
    (orderId : Nat) : Option RefundApplication :=
  refunds.find? (openPred orderId)

/-- Embedding of `RefundEligibilityChecker._check_time_limit`
(lines 95-112), with time in whole days. -/
def check_time_limit (order : Order) (now : Int) : Bool × String :=
  let daysPassed := now - order.createdAt
  if daysPassed > RefundRules.REFUND_DEADLINE_DAYS then
    (false, "订单已超过退货期限（7天），当前已过 " ++ toString daysPassed ++ " 天")
  else
    (true, "在退货期限内（已过 " ++ toString daysPassed ++ " 天）")

/-- Embedding of `RefundEligibilityChecker._check_category`
(lines 114-126): the order may contain no item whose name contains a
non-refundable category string. -/
def check_category (order : Order) : Bool × String :=
  match order.items.find? (fun item =>
      RefundRules.NON_REFUNDABLE_CATEGORIES.any (fun c => strContains item.name c)) with
  | some item => (false, "订单包含不可退货商品：" ++ item.name)
  | none => (true, "商品类别符合退货条件")

/-- Embedding of `RefundEligibilityChecker.check_eligibility`
(lines 42-77): order state allowed, no existing PENDING/APPROVED refund
for the order, within the deadline, no non-refundable item — in that
order, returning the first failing rule's message. -/
def check_eligibility (refunds : List RefundApplication) (order : Order)
    (now : Int) : Bool × String :=
  if order.status ∉ RefundRules.ALLOWED_ORDER_STATUSES then
    (false, "订单状态不符合退货条件，只有已发货或已签收的订单才能退货")
  else
    match check_existing_refund refunds order.id with
    | some _ => (false, "该订单已存在退货申请")
    | none =>
      let timeCheck := check_time_limit order now
      if ¬ timeCheck.1 then (false, timeCheck.2)
      else
        let categoryCheck := check_category order
        if ¬ categoryCheck.1 then (false, categoryCheck.2)
        else (true, "订单符合退货条件")

/-- Embedding of `RefundApplicationService.create_refund_application`
(lines 136-198): find the order by id and owner (failure with
"订单不存在或无权访问" when absent, persisting nothing), run the
eligibility rules (failure persists nothing), else insert a new PENDING
refund application for the order's full amount. -/
def create_refund_application (db : DB) (orderId userId : Nat)
    (reasonDetail : String) (reasonCategory : Option RefundReason)
    (now : Int) : DB × Bool × String × Option RefundApplication :=
  match db.orders.find? (fun o => decide (o.id = orderId ∧ o.userId = userId)) with
  | none => (db, false, "订单不存在或无权访问", none)
  | some order =>
    let elig := check_eligibility db.refunds order now
    if ¬ elig.1 then (db, false, "退货申请被拒绝：" ++ elig.2, none)
    else
      let refundApp : RefundApplication :=
        { id := db.nextRefundId, orderId := orderId, userId := userId,
          status := RefundStatus.PENDING, reasonCategory := reasonCategory,
          reasonDetail := reasonDetail, refundAmount := order.totalAmount,
          adminNote := none, reviewedBy := none, reviewedAt := none,
          createdAt := now, updatedAt := now }
      ({ db with
         refunds := db.refunds ++ [refundApp],
         nextRefundId := db.nextRefundId + 1 },
       true, "退货申请已提交，等待审核", some refundApp)

/-- Refund applications of an order that are PENDING or APPROVED. -/
def openFor (refunds : List RefundApplication) (orderId : Nat) :
    List RefundApplication :=
  refunds.filter (openPred orderId)

/-- At most one PENDING/APPROVED refund application per order. -/
def AtMostOneOpen (db : DB) : Prop :=
  ∀ orderId : Nat, (openFor db.refunds orderId).length ≤ 1

/-! ## Concrete fixtures used by witnesses and counterexamples -/

/-- A small context snapshot. -/
def exSnapshot : Snapshot :=
  { question := "我要退货，订单号 SN20240001", refundData := none,
    orderData := none, history := [] }

/-- A pending high-value refund application (id 1, order 1, user 1,
amount 2500). -/
def exRefund : RefundApplication :=
  { id := 1, orderId := 1, userId := 1, status := RefundStatus.PENDING,
    reasonCategory := some RefundReason.QUALITY_ISSUE,
    reasonDetail := "质量问题", refundAmount := 2500, adminNote := none,
    reviewedBy := none, reviewedAt := none, createdAt := 0, updatedAt := 0 }

/-- A PENDING audit log (id 1) for `exRefund` on thread `thread-1`. -/
def exAudit : AuditLog :=
  { id := 1, threadId := "thread-1", userId := 1, orderId := some 1,
    refundApplicationId := some 1, triggerReason := "高额退款申请：¥2500 (≥ ¥2000)",
    riskLevel := RiskLevel.HIGH, action := AuditAction.PENDING,
    adminId := none, adminComment := none, contextSnapshot := exSnapshot,
    createdAt := 0, reviewedAt := none, updatedAt := 0 }

/-- Store holding one pending case awaiting an admin decision. -/
def exDb : DB :=
  { orders := [], refunds := [exRefund], auditLogs := [exAudit],
    messageCards := [], nextRefundId := 2, nextAuditId := 2 }

/-- An APPROVE decision request. -/
def exReqApprove : AdminDecisionRequest :=
  { action := "APPROVE", adminComment := some "ok" }

/-- A REJECT decision request carrying a reviewer comment. -/
def exReqReject : AdminDecisionRequest :=
  { action := "REJECT", adminComment := some "quality unverified" }

/-- An audit log whose decision is already recorded (APPROVE). -/
def exAuditDecided : AuditLog :=
  { exAudit with
    action := AuditAction.APPROVE, adminId := some 7,
    adminComment := some "ok", reviewedAt := some 3, updatedAt := 3 }

/-- Store holding one already-decided case. -/
def exDbDecided : DB :=
  { orders := [], refunds := [{ exRefund with status := RefundStatus.APPROVED }],
    auditLogs := [exAuditDecided], messageCards := [],
    nextRefundId := 2, nextAuditId := 2 }

/-! ## C1 — single-decision invariant -/

/-- C1 — Single-decision invariant: whenever a call to the decision
endpoint succeeds, the targeted audit log's action was exactly PENDING at
the start of the call; and on the store that call committed, every later
decision call for the same case — whatever verdict, reviewer or time —
fails with the 400 already-processed error, and an erroring call commits
nothing, so the stored decision (action, reviewer, comment) and the case
state are left exactly as the first success wrote them: at most one
decision is ever attached to a case.  (The embedding is sequential; each
handler's transaction runs alone, as the spec's serialization requirement
assumes.) -/
theorem decision_recorded_once (db : DB) (auditLogId : Nat)
    (req : AdminDecisionRequest) (adminId : Nat) (now : Int)
    (h : isOkE (admin_decision db auditLogId req adminId now) = true) :
    (findAudit db auditLogId).map AuditLog.action = some AuditAction.PENDING ∧
    ∀ (req2 : AdminDecisionRequest) (adminId2 : Nat) (now2 : Int),
      admin_decision (decideDbAfter db auditLogId req adminId now)
          auditLogId req2 adminId2 now2
        = Except.error HttpError.alreadyProcessed := by
  rcases hfind : findAudit db auditLogId with _ | log
  · unfold admin_decision at h
    rw [hfind] at h
    simp [isOkE] at h
  · by_cases hact : log.action = AuditAction.PENDING
    · refine ⟨by simp [hact], ?_⟩
      intro req2 adminId2 now2
      have hdb : (decideDbAfter db auditLogId req adminId now).auditLogs
          = updateWhere (auditIdIs auditLogId)
              (decideAuditUpdate
                (if req.action = "APPROVE" then AuditAction.APPROVE else AuditAction.REJECT)
                adminId req.adminComment now) db.auditLogs := by
        unfold decideDbAfter admin_decision
        rw [hfind]
        simp [hact]
      have hfind2 : findAudit (decideDbAfter db auditLogId req adminId now) auditLogId
          = some (decideAuditUpdate
              (if req.action = "APPROVE" then AuditAction.APPROVE else AuditAction.REJECT)
              adminId req.adminComment now log) := by
        unfold findAudit
        rw [hdb]
        exact find?_updateWhere (auditIdIs auditLogId)
          (decideAuditUpdate
            (if req.action = "APPROVE" then AuditAction.APPROVE else AuditAction.REJECT)
            adminId req.adminComment now)
          (fun x => rfl) db.auditLogs log hfind
      unfold admin_decision
      rw [hfind2]
      by_cases hreq : req.action = "APPROVE" <;> simp [hreq, decideAuditUpdate]
    · exfalso
      unfold admin_decision at h
      rw [hfind] at h
      simp [hact, isOkE] at h

/-- Closed instance of `decision_recorded_once`: on the concrete pending
case of `exDb`, an APPROVE decision succeeds and a later REJECT attempt
by a different reviewer fails with the already-processed error. -/
theorem decision_recorded_once_witness :
    isOkE (admin_decision exDb 1 exReqApprove 7 3) = true ∧
    admin_decision (decideDbAfter exDb 1 exReqApprove 7 3) 1 exReqReject 8 4
      = Except.error HttpError.alreadyProcessed :=
  ⟨by decide, (decision_recorded_once exDb 1 exReqApprove 7 3 (by decide)).2 exReqReject 8 4⟩

/-! ## C2 — decision resubmission is an error, not an idempotent success -/

/-- C2 counterexample: on the concrete store `exDb`, the first APPROVE
decision succeeds, and resubmitting the very same decision (same verdict,
same reviewer — a network retry) against the committed store returns the
400 already-processed error, not a success carrying the original
decision.  The claimed idempotent-success behaviour does not hold at this
input. -/
theorem decide_retry_returns_error_cex :
    isOkE (admin_decision exDb 1 exReqApprove 7 3) = true ∧
    admin_decision (decideDbAfter exDb 1 exReqApprove 7 3) 1 exReqApprove 7 4
      = Except.error HttpError.alreadyProcessed := by
  constructor
  · decide
  · rfl

/-- C2 as amended: for every case whose decision has already been
recorded (its audit log's action is no longer PENDING), a subsequent
decide call fails with the 400 already-processed `HTTPException` — the
caller receives an error, not a success with the original verdict; the
stored decision is unchanged since the handler raises before writing. -/
theorem decide_already_processed_errors (db : DB) (auditLogId : Nat)
    (log : AuditLog) (req : AdminDecisionRequest) (adminId : Nat) (now : Int)
    (hfind : findAudit db auditLogId = some log)
    (hact : log.action ≠ AuditAction.PENDING) :
    admin_decision db auditLogId req adminId now
      = Except.error HttpError.alreadyProcessed := by
  unfold admin_decision
  rw [hfind]
  simp [hact]

/-- Closed instance of `decide_already_processed_errors` on a store whose
only audit log is already approved. -/
theorem decide_already_processed_errors_witness :
    findAudit exDbDecided 1 = some exAuditDecided ∧
    exAuditDecided.action ≠ AuditAction.PENDING ∧
    admin_decision exDbDecided 1 exReqReject 9 5
      = Except.error HttpError.alreadyProcessed :=
  ⟨by decide, by decide,
    decide_already_processed_errors exDbDecided 1 exAuditDecided exReqReject 9 5
      (by decide) (by decide)⟩

/-! ## C3 — postconditions of the decision endpoint -/

/-- C3 — Decide postconditions: for a case whose audit log is PENDING and
whose linked refund application exists, an APPROVE decision commits the
refund application as APPROVED and the audit log as APPROVE, sends
exactly the settlement task and the customer SMS task, and pushes one
terminal status-change event to the customer thread's subject; a REJECT
decision commits REJECTED, sends no Celery task at all (in particular no
settlement), and pushes one terminal status-change event to the thread
whose payload carries the reviewer's comment. -/
theorem decide_postconditions (db : DB) (auditLogId adminId : Nat) (now : Int)
    (c : Option String) (log : AuditLog) (rid : Nat) (refund : RefundApplication)
    (hfind : findAudit db auditLogId = some log)
    (hact : log.action = AuditAction.PENDING)
    (hrid : log.refundApplicationId = some rid)
    (href : findRefund db rid = some refund) :
    (findRefund (decideDbAfter db auditLogId ⟨"APPROVE", c⟩ adminId now) rid
        = some (decideRefundUpdate RefundStatus.APPROVED adminId c now refund) ∧
      findAudit (decideDbAfter db auditLogId ⟨"APPROVE", c⟩ adminId now) auditLogId
        = some (decideAuditUpdate AuditAction.APPROVE adminId c now log) ∧
      decideTasks db auditLogId ⟨"APPROVE", c⟩ adminId now
        = [CeleryTask.processRefundPayment rid refund.refundAmount ("原支付方式"),
           CeleryTask.sendRefundSms rid ("138****1234") (refundSmsText refund.refundAmount)] ∧
      decideEvents db auditLogId ⟨"APPROVE", c⟩ adminId now
        = [{ subject := Subject.thread log.threadId, etype := "status_change",
             status := some "APPROVE",
             data := WsData.decision (" 审核通过，资金将在3-5个工作日内原路退回") c }]) ∧
    (findRefund (decideDbAfter db auditLogId ⟨"REJECT", c⟩ adminId now) rid
        = some (decideRefundUpdate RefundStatus.REJECTED adminId c now refund) ∧
      findAudit (decideDbAfter db auditLogId ⟨"REJECT", c⟩ adminId now) auditLogId
        = some (decideAuditUpdate AuditAction.REJECT adminId c now log) ∧
      decideTasks db auditLogId ⟨"REJECT", c⟩ adminId now = [] ∧
      decideEvents db auditLogId ⟨"REJECT", c⟩ adminId now
        = [{ subject := Subject.thread log.threadId, etype := "status_change",
             status := some "REJECT",
             data := WsData.decision (" 审核未通过: " ++ optStr c) c }]) := by
  constructor
  · have hdbR : (decideDbAfter db auditLogId ⟨"APPROVE", c⟩ adminId now).refunds
        = updateWhere (refundIdIs rid)
            (decideRefundUpdate RefundStatus.APPROVED adminId c now) db.refunds := by
      unfold decideDbAfter admin_decision
      rw [hfind]
      simp [hact, hrid, href]
    have hdbA : (decideDbAfter db auditLogId ⟨"APPROVE", c⟩ adminId now).auditLogs
        = updateWhere (auditIdIs auditLogId)
            (decideAuditUpdate AuditAction.APPROVE adminId c now) db.auditLogs := by
      unfold decideDbAfter admin_decision
      rw [hfind]
      simp [hact, hrid, href]
    refine ⟨?_, ?_, ?_, ?_⟩
    · unfold findRefund
      rw [hdbR]
      exact find?_updateWhere (refundIdIs rid)
        (decideRefundUpdate RefundStatus.APPROVED adminId c now)
        (fun x => rfl) db.refunds refund href
    · unfold findAudit
      rw [hdbA]
      exact find?_updateWhere (auditIdIs auditLogId)
        (decideAuditUpdate AuditAction.APPROVE adminId c now)
        (fun x => rfl) db.auditLogs log hfind
    · unfold decideTasks admin_decision
      rw [hfind]
      simp [hact, hrid, href, delay]
    · unfold decideEvents admin_decision
      rw [hfind]
      simp [hact, hrid, href, notify_status_change]
  · have hdbR : (decideDbAfter db auditLogId ⟨"REJECT", c⟩ adminId now).refunds
        = updateWhere (refundIdIs rid)
            (decideRefundUpdate RefundStatus.REJECTED adminId c now) db.refunds := by
      unfold decideDbAfter admin_decision
      rw [hfind]
      simp [hact, hrid, href]
    have hdbA : (decideDbAfter db auditLogId ⟨"REJECT", c⟩ adminId now).auditLogs
        = updateWhere (auditIdIs auditLogId)
            (decideAuditUpdate AuditAction.REJECT adminId c now) db.auditLogs := by
      unfold decideDbAfter admin_decision
      rw [hfind]
      simp [hact, hrid, href]
    refine ⟨?_, ?_, ?_, ?_⟩
    · unfold findRefund
      rw [hdbR]
      exact find?_updateWhere (refundIdIs rid)
        (decideRefundUpdate RefundStatus.REJECTED adminId c now)
        (fun x => rfl) db.refunds refund href
    · unfold findAudit
      rw [hdbA]
      exact find?_updateWhere (auditIdIs auditLogId)
        (decideAuditUpdate AuditAction.REJECT adminId c now)
        (fun x => rfl) db.auditLogs log hfind
    · unfold decideTasks admin_decision
      rw [hfind]
      simp [hact, hrid, href]
    · unfold decideEvents admin_decision
      rw [hfind]
      simp [hact, hrid, href, notify_status_change]

/-- Closed instance of `decide_postconditions` on the concrete pending
case: the APPROVE path sends exactly the settlement and SMS tasks, and
the REJECT path sends none and pushes the comment-carrying event. -/
theorem decide_postconditions_witness :
    decideTasks exDb 1 ⟨"APPROVE", some "ok"⟩ 7 3
      = [CeleryTask.processRefundPayment 1 2500 ("原支付方式"),
         CeleryTask.sendRefundSms 1 ("138****1234") (refundSmsText 2500)] ∧
    decideTasks exDb 1 ⟨"REJECT", some "quality unverified"⟩ 7 3 = [] ∧
    decideEvents exDb 1 ⟨"REJECT", some "quality unverified"⟩ 7 3
      = [{ subject := Subject.thread "thread-1", etype := "status_change",
           status := some "REJECT",
           data := WsData.decision (" 审核未通过: quality unverified")
             (some "quality unverified") }] :=
  ⟨(decide_postconditions exDb 1 7 3 (some "ok") exAudit 1 exRefund
      rfl rfl rfl rfl).1.2.2.1,
   (decide_postconditions exDb 1 7 3 (some "quality unverified") exAudit 1 exRefund
      rfl rfl rfl rfl).2.2.2.1,
   (decide_postconditions exDb 1 7 3 (some "quality unverified") exAudit 1 exRefund
      rfl rfl rfl rfl).2.2.2.2⟩

/-! ## C4 — the auto-approval path -/

/-- A pending low-value refund application (id 2, order 2, amount 100). -/
def exRefundLow : RefundApplication :=
  { id := 2, orderId := 2, userId := 1, status := RefundStatus.PENDING,
    reasonCategory := some RefundReason.SIZE_NOT_FIT,
    reasonDetail := "尺码不合适", refundAmount := 100, adminNote := none,
    reviewedBy := none, reviewedAt := none, createdAt := 0, updatedAt := 0 }

/-- Store holding only the low-value pending refund. -/
def exDbLow : DB :=
  { orders := [], refunds := [exRefundLow], auditLogs := [],
    messageCards := [], nextRefundId := 3, nextAuditId := 1 }

/-- Refund data of the low-value request as `handle_refund` builds it. -/
def exRdLow : RefundData :=
  { refundId := 2, orderId := 2, orderSn := "SN20240002", amount := 100,
    reason := "尺码不合适", reasonCategory := RefundReason.SIZE_NOT_FIT }

/-- Agent state carrying the low-value refund data on thread-2. -/
def exStateLow : AgentState :=
  { question := "我要退货，订单号 SN20240002", userId := 1,
    threadId := "thread-2", refundData := some exRdLow, orderData := none,
    history := [], answer := "" }

/-- C4 counterexample: submitting the amount-100 refund under the default
thresholds (medium 500) does end in an approved case, but the node sends
no Celery task at all — in particular no settlement task — and pushes no
notification event, contradicting the claimed "exactly one SETTLE_PAYMENT
job enqueued and one terminal APPROVED notification published". -/
theorem auto_approve_no_settlement_cex :
    (check_refund_eligibility defaultSettings exDbLow exStateLow 5).tasks = [] ∧
    (check_refund_eligibility defaultSettings exDbLow exStateLow 5).events = [] ∧
    (findRefund (check_refund_eligibility defaultSettings exDbLow exStateLow 5).db 2).map
        RefundApplication.status = some RefundStatus.APPROVED ∧
    (check_refund_eligibility defaultSettings exDbLow exStateLow 5).res.auditRequired
      = false := by
  decide

/-- C4 as amended: for every submitted refund whose amount is below both
thresholds, the node commits the refund application as APPROVED (with the
review timestamp) and answers with the auto-approval text, but it
enqueues no job and publishes no notification: the settlement and
customer-notification side effects are simply absent from the
auto-approval path. -/
theorem auto_approve_postconditions (cfg : Settings) (db : DB) (st : AgentState)
    (rd : RefundData) (now : Int)
    (hrd : st.refundData = some rd)
    (hhigh : rd.amount < cfg.HIGH_RISK_REFUND_AMOUNT)
    (hmed : rd.amount < cfg.MEDIUM_RISK_REFUND_AMOUNT) :
    (check_refund_eligibility cfg db st now).tasks = [] ∧
    (check_refund_eligibility cfg db st now).events = [] ∧
    (check_refund_eligibility cfg db st now).db.auditLogs = db.auditLogs ∧
    (check_refund_eligibility cfg db st now).db.refunds
      = updateWhere (refundIdIs rd.refundId) (autoApprove now) db.refunds ∧
    (check_refund_eligibility cfg db st now).res
      = { auditRequired := false, auditLogId := none,
          answer := autoApproveAnswer rd } ∧
    ∀ r : RefundApplication, findRefund db rd.refundId = some r →
      findRefund (check_refund_eligibility cfg db st now).db rd.refundId
        = some (autoApprove now r) := by
  have hout : check_refund_eligibility cfg db st now
      = { db := { db with
                  refunds := updateWhere (refundIdIs rd.refundId) (autoApprove now) db.refunds },
          tasks := [], events := [],
          res := { auditRequired := false, auditLogId := none,
                   answer := autoApproveAnswer rd } } := by
    simp [check_refund_eligibility, hrd, not_le.mpr hhigh, not_le.mpr hmed]
  refine ⟨by rw [hout], by rw [hout], by rw [hout], by rw [hout], by rw [hout], ?_⟩
  intro r hr
  rw [hout]
  unfold findRefund at hr ⊢
  exact find?_updateWhere (refundIdIs rd.refundId) (autoApprove now)
    (fun x => rfl) db.refunds r hr

/-- Closed instance of `auto_approve_postconditions` on the concrete
amount-100 scenario. -/
theorem auto_approve_postconditions_witness :
    (check_refund_eligibility defaultSettings exDbLow exStateLow 5).tasks = [] ∧
    findRefund (check_refund_eligibility defaultSettings exDbLow exStateLow 5).db 2
      = some (autoApprove 5 exRefundLow) :=
  ⟨(auto_approve_postconditions defaultSettings exDbLow exStateLow exRdLow 5
      rfl (by decide) (by decide)).1,
   (auto_approve_postconditions defaultSettings exDbLow exStateLow exRdLow 5
      rfl (by decide) (by decide)).2.2.2.2.2 exRefundLow rfl⟩

/-! ## C6 — enqueueing is never deduplicated -/

/-- A concrete settlement task. -/
def exSettleTask : CeleryTask :=
  CeleryTask.processRefundPayment 1 2500 ("原支付方式")

/-- C6 counterexample: sending the same settlement task twice through
`delay` yields a queue of two identical task messages, not one —
enqueueing the same job twice is observably different from enqueueing it
once, and the task value carries no idempotency key at all (its type has
only the task name and positional arguments). -/
theorem enqueue_twice_duplicates_cex :
    delay (delay [] exSettleTask) exSettleTask ≠ delay [] exSettleTask ∧
    (delay (delay [] exSettleTask) exSettleTask).length = 2 ∧
    (delay [] exSettleTask).length = 1 := by
  decide

/-- C6 as amended: `delay` unconditionally appends one task message per
call — there is no idempotency key, no QUEUED/RUNNING/DONE gate and no
duplicate check, so a repeated enqueue always grows the queue and never
equals a single enqueue. -/
theorem enqueue_always_appends (q : List CeleryTask) (t : CeleryTask) :
    (delay q t).length = q.length + 1 ∧ delay (delay q t) t ≠ delay q t := by
  constructor
  · simp [delay]
  · intro h
    have hlen := congrArg List.length h
    simp [delay] at hlen

/-! ## C7 — the settlement worker rewrites case state -/

/-- The store after a run of the payment worker; a failed run (refund not
found, re-raised into Celery retry) commits nothing. -/
def settleDbAfter (db : DB) (refundId : Nat) (amount : Rat)
    (paymentMethod : String) (now : Int) : DB :=
  match process_refund_payment db refundId amount paymentMethod now with
  | Except.ok o => o.1
  | Except.error _ => db

/-- C7 counterexample: on the concrete store whose case is APPROVED,
a successful run of the settlement worker leaves the refund application
in state COMPLETED — the worker itself rewrites the case's recorded
state, so an APPROVED case does not stay APPROVED across a successful
settlement. -/
theorem settlement_rewrites_case_state_cex :
    (findRefund exDbDecided 1).map RefundApplication.status
      = some RefundStatus.APPROVED ∧
    (findRefund (settleDbAfter exDbDecided 1 2500 ("原支付方式") 9) 1).map
        RefundApplication.status = some RefundStatus.COMPLETED ∧
    RefundStatus.COMPLETED ≠ RefundStatus.APPROVED := by
  decide

/-- C7 as amended: the SMS worker touches no store at all (its embedding
`send_refund_sms` takes none), a failing settlement run commits nothing
(the `Except` shape), and a successful settlement run leaves audit logs,
orders and message cards untouched — but it does write the refund
application: the matching row's status becomes COMPLETED.  Only this one
transition is worker-written; audit-log state is never worker-written. -/
theorem side_effect_frame_amended (db : DB) (refundId : Nat) (amount : Rat)
    (paymentMethod : String) (now : Int) (db' : DB) (res : PaymentResult)
    (h : process_refund_payment db refundId amount paymentMethod now
      = Except.ok (db', res)) :
    db'.auditLogs = db.auditLogs ∧ db'.orders = db.orders ∧
    db'.messageCards = db.messageCards ∧
    db'.refunds = updateWhere (refundIdIs refundId) (completeRefund now) db.refunds := by
  unfold process_refund_payment at h
  rcases hf : findRefund db refundId with _ | r
  · rw [hf] at h
    simp at h
  · rw [hf] at h
    injection h with hpair
    cases hpair
    exact ⟨rfl, rfl, rfl, rfl⟩

/-- Expected worker result on the concrete run used by the witness. -/
def exPayRes : PaymentResult :=
  { status := "success", refundId := 1, amount := 2500,
    transactionId := "TXN19" }

/-- Closed instance of `side_effect_frame_amended` on the concrete
APPROVED case. -/
theorem side_effect_frame_amended_witness :
    (settleDbAfter exDbDecided 1 2500 ("原支付方式") 9).auditLogs
        = exDbDecided.auditLogs ∧
    (settleDbAfter exDbDecided 1 2500 ("原支付方式") 9).refunds
        = updateWhere (refundIdIs 1) (completeRefund 9) exDbDecided.refunds := by
  have h := side_effect_frame_amended exDbDecided 1 2500 ("原支付方式") 9
    (settleDbAfter exDbDecided 1 2500 ("原支付方式") 9) exPayRes rfl
  exact ⟨h.1, h.2.2.2⟩

/-! ## C8 — rendering of the status query -/

/-- C8 counterexample: run the concrete amount-100 submission to its
auto-approved end state, then poll the status of its thread.  The case is
APPROVED in the store, but the query — which reads only audit logs, and
the auto-approval path writes none — renders PROCESSING, not APPROVED. -/
theorem status_auto_approved_processing_cex :
    (findRefund (check_refund_eligibility defaultSettings exDbLow exStateLow 5).db 2).map
        RefundApplication.status = some RefundStatus.APPROVED ∧
    (get_thread_status (check_refund_eligibility defaultSettings exDbLow exStateLow 5).db
        "thread-2" 1).status = "PROCESSING" ∧
    "PROCESSING" ≠ "APPROVED" := by
  decide

/-- C8 as amended: for every store, thread and caller, the status query
renders exactly the thread's latest audit record — PENDING to
WAITING_ADMIN, APPROVE to APPROVED, REJECT to REJECTED, and no audit
record (or the unreachable ESCALATE) to PROCESSING — and the result is
always one of the four statuses.  An auto-approved low-risk case leaves
no audit record, so its thread renders PROCESSING rather than APPROVED.
The query's embedding returns only a response and no store, so it
performs no writes. -/
theorem status_rendering_amended (db : DB) (threadId : String) (userId : Nat) :
    (get_thread_status db threadId userId).status
      = renderAction ((latestAuditFor db threadId userId).map AuditLog.action) ∧
    (get_thread_status db threadId userId).status
      ∈ ["PROCESSING", "WAITING_ADMIN", "APPROVED", "REJECTED"] := by
  have hs : (get_thread_status db threadId userId).status
      = renderAction ((latestAuditFor db threadId userId).map AuditLog.action) := by
    unfold get_thread_status
    rcases h : latestAuditFor db threadId userId with _ | l
    · rfl
    · rcases ha : l.action <;> simp [ha, renderAction]
  refine ⟨hs, ?_⟩
  rw [hs]
  rcases (latestAuditFor db threadId userId).map AuditLog.action with _ | a
  · decide
  · cases a <;> decide

/-! ## C9 — ownership check on refund creation -/

/-- An order that belongs to user 2 (not to the calling user 1). -/
def exOrderOther : Order :=
  { id := 1, orderSn := "SN20240001", userId := 2,
    status := OrderStatus.DELIVERED, totalAmount := 2500, items := [],
    trackingNumber := none, shippingAddress := "address", createdAt := 0 }

/-- Store holding only user 2's order and no refund applications. -/
def exDbOwn : DB :=
  { orders := [exOrderOther], refunds := [], auditLogs := [],
    messageCards := [], nextRefundId := 1, nextAuditId := 1 }

/-- C9 — Ownership check on refund creation: whenever the store holds no
order with both the requested id and the calling user as owner — in
particular whenever the order exists but belongs to a different user —
`create_refund_application` returns the failure "订单不存在或无权访问"
("order not found or no access"), creates nothing, and returns the store
exactly unchanged. -/
theorem refund_requires_order_ownership (db : DB) (orderId userId : Nat)
    (reasonDetail : String) (reasonCategory : Option RefundReason) (now : Int)
    (h : db.orders.find? (fun o => decide (o.id = orderId ∧ o.userId = userId)) = none) :
    create_refund_application db orderId userId reasonDetail reasonCategory now
      = (db, false, "订单不存在或无权访问", none) := by
  unfold create_refund_application
  rw [h]

/-- Closed instance of `refund_requires_order_ownership`: user 1 asks to
refund order 1, which exists but is owned by user 2; the call fails and
the store is unchanged. -/
theorem refund_requires_order_ownership_witness :
    create_refund_application exDbOwn 1 1 ("质量问题")
        (some RefundReason.QUALITY_ISSUE) 3
      = (exDbOwn, false, "订单不存在或无权访问", none) :=
  refund_requires_order_ownership exDbOwn 1 1 ("质量问题")
    (some RefundReason.QUALITY_ISSUE) 3 (by decide)

/-! ## C10 — at most one open refund per order -/

/-- Eligibility success implies the duplicate query found nothing. -/
theorem check_eligibility_true_no_open (refunds : List RefundApplication)
    (order : Order) (now : Int)
    (h : (check_eligibility refunds order now).1 = true) :
    check_existing_refund refunds order.id = none := by
  unfold check_eligibility at h
  by_cases h1 : order.status ∈ RefundRules.ALLOWED_ORDER_STATUSES
  · rcases he : check_existing_refund refunds order.id with _ | r
    · rfl
    · rw [if_neg (not_not_intro h1), he] at h
      simp at h
  · rw [if_pos h1] at h
    simp at h

/-- A delivered order of user 1 matching `exRefund`'s order id. -/
def exOrderDelivered : Order :=
  { id := 1, orderSn := "SN20240001", userId := 1,
    status := OrderStatus.DELIVERED, totalAmount := 2500, items := [],
    trackingNumber := none, shippingAddress := "address", createdAt := 0 }

/-- Store in which order 1 already has the open (PENDING) refund
application `exRefund`. -/
def exDbOpen : DB :=
  { orders := [exOrderDelivered], refunds := [exRefund], auditLogs := [],
    messageCards := [], nextRefundId := 2, nextAuditId := 1 }

/-- C10 — At most one open refund per order: (1) whenever some
PENDING/APPROVED refund application already exists for an order, the
eligibility check returns not-eligible; and (2) `create_refund_application`
preserves the invariant that every order has at most one PENDING/APPROVED
application — a successful creation is only possible when the duplicate
query found nothing, and it adds exactly one PENDING application for that
order. -/
theorem at_most_one_open_refund (db : DB) (order : Order) (now : Int)
    (orderId userId : Nat) (reasonDetail : String)
    (reasonCategory : Option RefundReason) :
    (openFor db.refunds order.id ≠ [] →
      (check_eligibility db.refunds order now).1 = false) ∧
    (AtMostOneOpen db →
      AtMostOneOpen
        (create_refund_application db orderId userId reasonDetail reasonCategory now).1) := by
  constructor
  · intro hopen
    rcases hb : (check_eligibility db.refunds order now).1 with _ | _
    · rfl
    · exfalso
      have hnone := check_eligibility_true_no_open db.refunds order now hb
      unfold check_existing_refund at hnone
      rw [List.find?_eq_none] at hnone
      exact hopen (List.filter_eq_nil_iff.mpr hnone)
  · intro hinv
    unfold create_refund_application
    rcases horder : db.orders.find? (fun o => decide (o.id = orderId ∧ o.userId = userId))
      with _ | order'
    · rw [horder]
      exact hinv
    · rw [horder]
      rcases helig : (check_eligibility db.refunds order' now).1 with _ | _
      · simp only [helig, Bool.false_eq_true, not_false_eq_true, if_true]
        exact hinv
      · simp only [helig, not_true_eq_false, if_false, Bool.false_eq_true]
        have hid : order'.id = orderId ∧ order'.userId = userId := by
          have := List.find?_some horder
          simpa using this
        have hnone := check_eligibility_true_no_open db.refunds order' now helig
        unfold check_existing_refund at hnone
        rw [List.find?_eq_none] at hnone
        intro oid
        show (openFor (db.refunds ++
          [{ id := db.nextRefundId, orderId := orderId, userId := userId,
             status := RefundStatus.PENDING, reasonCategory := reasonCategory,
             reasonDetail := reasonDetail, refundAmount := order'.totalAmount,
             adminNote := none, reviewedBy := none, reviewedAt := none,
             createdAt := now, updatedAt := now }]) oid).length ≤ 1
        unfold openFor
        rw [List.filter_append]
        by_cases hoid : oid = orderId
        · have hfil : db.refunds.filter (openPred oid) = [] := by
            apply List.filter_eq_nil_iff.mpr
            intro r hr
            have := hnone r hr
            rw [hid.1] at this
            rw [hoid]
            exact this
          rw [hfil]
          simpa using List.length_filter_le (openPred oid) _
        · have hfil : List.filter (openPred oid)
              [({ id := db.nextRefundId, orderId := orderId, userId := userId,
                  status := RefundStatus.PENDING, reasonCategory := reasonCategory,
                  reasonDetail := reasonDetail, refundAmount := order'.totalAmount,
                  adminNote := none, reviewedBy := none, reviewedAt := none,
                  createdAt := now, updatedAt := now } : RefundApplication)] = [] := by
            apply List.filter_eq_nil_iff.mpr
            intro r hr
            simp at hr
            subst hr
            simp [openPred]
            intro hco
            exact absurd hco.symm hoid
          rw [hfil, List.append_nil]
          exact hinv oid

/-- Closed instance of the first part of `at_most_one_open_refund`:
order 1 already has the PENDING application `exRefund`, and the
eligibility check on that order comes back not-eligible. -/
theorem at_most_one_open_refund_witness :
    openFor exDbOpen.refunds 1 ≠ [] ∧
    (check_eligibility exDbOpen.refunds exOrderDelivered 3).1 = false :=
  ⟨by decide,
   (at_most_one_open_refund exDbOpen exOrderDelivered 3 1 1 ("x") none).1 (by decide)⟩

end ECommerce
